import Mathlib

/-!
Shallow embedding of the outbound GitHub client layer
(`src/github/client/github-client.ts` and
`src/github/client/github-app-client.ts`):
GraphQL error classification, proxy selection at client construction,
and the app client's request interceptor pipeline and authentication
headers. Definitions are translated from the TypeScript source; parts
of the repository that sit outside the provided sources (interceptor
bodies, the token holder, the URL-params middleware) are modelled from
the specification and marked as such in their doc comments.
-/

/-- Shape of a single entry of the `errors` sequence of a GraphQL
response body: a message and an optional `type` marker
(`GraphQlQueryResponse` in `github-client.types`, given in the spec as
`\x7bmessage, type?\x7d`). -/
structure QueryError where
  message : String
  type : Option String
deriving DecidableEq, Repr

/-- Wire shape of a GraphQL response body, from the spec:
`\x7bdata?: T, errors?: [\x7bmessage, type?\x7d]\x7d`. -/
structure GraphQlQueryResponse (T : Type) where
  data : Option T
  errors : Option (List QueryError)
deriving DecidableEq, Repr

/-- An axios HTTP response as observed by `graphql` after a successful
transport call: a status and a body (`response.data`), which the code
accesses defensively through optional chaining (`response.data?.errors`),
hence the `Option`. -/
structure AxiosResponse (B : Type) where
  status : Nat
  data : Option B
deriving DecidableEq, Repr

/-- Outcome of the `graphql` method after the transport call succeeded:
either the promise resolves with the response, or it rejects with
`RateLimitingError` (carrying the full response) or with
`GithubClientGraphQLError` (carrying the aggregate message and the raw
errors sequence), mirroring `github-client-errors`. -/
inductive GraphQLResult (T : Type) where
  | resolve (response : AxiosResponse (GraphQlQueryResponse T))
  | RateLimitingError (response : AxiosResponse (GraphQlQueryResponse T))
  | GithubClientGraphQLError (message : String) (errors : List QueryError)
deriving DecidableEq, Repr

namespace GitHubClient

/-- Classification step of `GitHubClient.graphql`
(github-client.ts lines 82-93), applied to the response of a successful
transport call. `response.data?.errors` is `Option.bind`; the truthiness
test `if (graphqlErrors?.length)` succeeds exactly when the sequence is
present and non-empty; `find(err => err.type == "RATE_LIMITED")` is a
membership test; the aggregate message is
`graphqlErrors[0].message + (length > 1 ? " and (length-1) more errors" : "")`. -/
def graphql {T : Type} (response : AxiosResponse (GraphQlQueryResponse T)) :
    GraphQLResult T :=
  match response.data.bind GraphQlQueryResponse.errors with
  | some (first :: rest) =>
    if (first :: rest).any (fun err => err.type == some "RATE_LIMITED") then
      .RateLimitingError response
    else
      .GithubClientGraphQLError
        (first.message ++
          (if (first :: rest).length > 1 then
            " and " ++ toString ((first :: rest).length - 1) ++ " more errors"
          else ""))
        (first :: rest)
  | some [] => .resolve response
  | none => .resolve response

end GitHubClient

/-- The per-client configuration (`GitHubConfig` in github-client.ts):
where REST and GraphQL calls are sent and an optional explicit proxy. -/
structure GitHubConfig where
  hostname : String
  baseUrl : String
  apiUrl : String
  graphqlUrl : String
  proxyBaseUrl : Option String
deriving DecidableEq, Repr

/-- A transport agent as constructed by the client: the constructors
record which library constructor was invoked (`new HttpProxyAgent(url)`
or `new HttpsProxyAgent(url)`) and with which proxy URL. -/
inductive Agent where
  | HttpProxyAgent (url : String)
  | HttpsProxyAgent (url : String)
deriving DecidableEq, Repr

/-- The proxy-relevant part of the axios request configuration produced
by the three proxy-config builders: the optional per-scheme agents and
the `proxy` option (axios native proxy handling, enabled by default when
the key is absent). -/
structure ProxyConfig where
  httpAgent : Option Agent := none
  httpsAgent : Option Agent := none
  proxy : Bool := true
deriving DecidableEq, Repr

/-- Whether the first list is an initial segment of the second
(character-level helper for the URL functions below). -/
def startsWithChars : List Char → List Char → Bool
  | [], _ => true
  | _ :: _, [] => false
  | p :: ps, c :: cs => p == c && startsWithChars ps cs

/-- Whether the first list ends with the second. -/
def endsWithChars (s tailPat : List Char) : Bool :=
  startsWithChars tailPat.reverse s.reverse

namespace GitHubClient

/-- Characters after the first scheme separator "://", or `none` when
there is no separator. -/
def afterScheme : List Char → Option (List Char)
  | [] => none
  | c :: cs =>
    if startsWithChars [':', '/', '/'] (c :: cs) then some (cs.drop 2)
    else afterScheme cs

/-- Characters up to the first path separator. -/
def takeUntilSlash : List Char → List Char
  | [] => []
  | c :: cs => if c == '/' then [] else c :: takeUntilSlash cs

/-- Host component of a URL as `new URL(baseUrl).host` computes it for
the base URLs this client receives: the text after the scheme separator
up to the first path separator. -/
def urlHost (url : String) : String :=
  let rest :=
    match afterScheme url.data with
    | some r => r
    | none => url.data
  String.mk (takeUntilSlash rest)

/-- The trusted-domain test `new URL(baseUrl).host.endsWith("atlassian.com")`
of github-client.ts line 47. -/
def hostIsAtlassian (baseUrl : String) : Bool :=
  endsWithChars (urlHost baseUrl).data "atlassian.com".data

/-- The `noProxyConfig` builder (github-client.ts lines 54-60): sets
`httpsAgent` to undefined (just to make it visible) and `proxy: false`. -/
def noProxyConfig : ProxyConfig :=
  { httpsAgent := none, proxy := false }

/-- The `outboundProxyConfig` builder (github-client.ts lines 63-72),
with the process-wide `envVars.PROXY` setting passed in explicitly: an
HTTPS proxy agent when the setting is present, no agent otherwise, and
`proxy: false` to disable axios native proxy handling. -/
def outboundProxyConfig (envProxy : Option String) : ProxyConfig :=
  let outboundProxyHttpsAgent := envProxy.map Agent.HttpsProxyAgent
  { httpsAgent := outboundProxyHttpsAgent, proxy := false }

/-- The `getProxyConfig` selector (github-client.ts lines 46-51): no
proxy when the host of the base URL ends with "atlassian.com", the
outbound proxy configuration otherwise. -/
def getProxyConfig (envProxy : Option String) (baseUrl : String) : ProxyConfig :=
  if hostIsAtlassian baseUrl then noProxyConfig
  else outboundProxyConfig envProxy

/-- The `buildProxyConfig` builder (github-client.ts lines 96-108): one
HTTP and one HTTPS proxy agent, both pointed at the explicit proxy base
URL, and `proxy: false`. -/
def buildProxyConfig (proxyBaseUrl : String) : ProxyConfig :=
  let proxyHttpAgent := Agent.HttpProxyAgent proxyBaseUrl
  let proxyHttpsAgent := Agent.HttpsProxyAgent proxyBaseUrl
  { httpAgent := some proxyHttpAgent, httpsAgent := some proxyHttpsAgent,
    proxy := false }

/-- JavaScript truthiness of the optional `proxyBaseUrl` string: absent
and the empty string are falsy. -/
def strTruthy : Option String → Bool
  | none => false
  | some s => !(s == "")

/-- Proxy part of the axios instance configuration chosen by the
constructor (github-client.ts line 41):
`gitHubConfig.proxyBaseUrl ? buildProxyConfig(proxyBaseUrl) : getProxyConfig(restApiUrl)`,
where `restApiUrl` is `gitHubConfig.apiUrl`. -/
def constructorProxyConfig (envProxy : Option String) (cfg : GitHubConfig) :
    ProxyConfig :=
  if strTruthy cfg.proxyBaseUrl then buildProxyConfig (cfg.proxyBaseUrl.getD "")
  else getProxyConfig envProxy cfg.apiUrl

end GitHubClient

/-- Modelled from the spec: the InstallationIdentity — an opaque
identity (app id, client id, base/API URLs, a correlation uuid) used to
scope token lookups (`InstallationId` lives outside the given sources). -/
structure InstallationId where
  appId : Nat
  githubBaseUrl : String
  uuid : String
deriving DecidableEq, Repr

/-- Modelled from the spec: the AppToken `\x7btoken, expiresAt\x7d`
returned by the Token Provider — a short-lived read-only credential. -/
structure AppToken where
  token : String
  expiresAt : Nat
deriving DecidableEq, Repr

/-- The Token Provider consumed by the app client
(`AppTokenHolder.getAppToken`, outside the given sources): given an
installation identity, returns the currently valid app token. Modelled
from the spec as an explicit function so that token rotation is a change
of this function between two dispatches. -/
def TokenProvider : Type := InstallationId → AppToken

/-- The mutable request configuration flowing through the axios request
interceptors: path template, named URL parameters, headers, and the
fields the instrumentation and timeout interceptors fill in. -/
structure AxiosReq where
  url : String
  urlParams : List (String × String)
  headers : List (String × String)
  startTime : Option Nat := none
  timeout : Option Nat := none
deriving DecidableEq, Repr

/-- JavaScript object-spread merge of two header maps: keys of the
second override keys of the first, as in
`\x7b...config.headers, ...appAuthenticationHeaders()\x7d`. -/
def spreadMerge (base extra : List (String × String)) :
    List (String × String) :=
  base.filter (fun kv => !(extra.any (fun kv2 => kv2.fst == kv.fst))) ++ extra

/-- Replace, in `cs`, every occurrence of the non-empty pattern
`p0 :: ps` by `val`; fuel-structured so the kernel can evaluate it
(fuel is consumed one character per step, so `cs.length` suffices). -/
def replaceFuel (p0 : Char) (ps val : List Char) :
    Nat → List Char → List Char
  | 0, l => l
  | _ + 1, [] => []
  | fuel + 1, c :: cs =>
    if startsWithChars (p0 :: ps) (c :: cs) then
      val ++ replaceFuel p0 ps val fuel (cs.drop ps.length)
    else c :: replaceFuel p0 ps val fuel cs

/-- Modelled from the spec: the `urlParamsMiddleware` substitution —
replace each named placeholder `\x7bname\x7d` in the path template by
the corresponding value of the `urlParams` map. -/
def substituteUrlParams (url : String) (params : List (String × String)) :
    String :=
  params.foldl
    (fun u kv =>
      String.mk (replaceFuel '\x7b' (kv.fst.data ++ ['\x7d']) kv.snd.data
        u.data.length u.data))
    url

namespace GitHubAppClient

/-- Modelled from the spec: the `setRequestStartTime` request
interceptor — records the dispatch time on the request context for later
latency computation (interceptor body lives outside the given sources). -/
def setRequestStartTime (now : Nat) (req : AxiosReq) : AxiosReq :=
  { req with startTime := some now }

/-- Modelled from the spec: the `setRequestTimeout` request interceptor
— enforces a request timeout derived from configuration (interceptor
body lives outside the given sources). -/
def setRequestTimeout (configuredTimeout : Nat) (req : AxiosReq) : AxiosReq :=
  { req with timeout := some configuredTimeout }

/-- Modelled from the spec: the `urlParamsMiddleware` request
interceptor — substitutes named URL parameters into the path template
(middleware body lives outside the given sources). -/
def urlParamsMiddleware (req : AxiosReq) : AxiosReq :=
  { req with url := substituteUrlParams req.url req.urlParams }

/-- The `appAuthenticationHeaders` method
(github-app-client.ts lines 77-84): fetches the current app token from
the token holder keyed by the installation identity and produces the
`Accept` (app-preview media type) and `Authorization: Bearer <token>`
headers. -/
def appAuthenticationHeaders (appTokenHolder : TokenProvider)
    (githubInstallationId : InstallationId) : List (String × String) :=
  let appToken := appTokenHolder githubInstallationId
  [("Accept", "application/vnd.github.machine-man-preview+json"),
   ("Authorization", "Bearer " ++ appToken.token)]

/-- The authentication request interceptor registered by the
constructor (github-app-client.ts lines 48-56): spreads the freshly
computed authentication headers over the request's headers. -/
def authHeadersInterceptor (appTokenHolder : TokenProvider)
    (githubInstallationId : InstallationId) (req : AxiosReq) : AxiosReq :=
  { req with
    headers :=
      spreadMerge req.headers
        (appAuthenticationHeaders appTokenHolder githubInstallationId) }

/-- The request interceptors in the order the constructor registers
them (github-app-client.ts lines 36-38 and 48-56): start time, timeout,
URL-parameter substitution, authentication headers. -/
def requestInterceptorChain (now configuredTimeout : Nat)
    (appTokenHolder : TokenProvider) (githubInstallationId : InstallationId) :
    List (AxiosReq → AxiosReq) :=
  [setRequestStartTime now,
   setRequestTimeout configuredTimeout,
   urlParamsMiddleware,
   authHeadersInterceptor appTokenHolder githubInstallationId]

/-- Application of a chain of request interceptors to a request, first
registered first. -/
def applyChain (chain : List (AxiosReq → AxiosReq)) (req : AxiosReq) :
    AxiosReq :=
  chain.foldl (fun r f => f r) req

/-- The request an axios call of this client dispatches after the
request-side pipeline has run. -/
def dispatch (now configuredTimeout : Nat) (appTokenHolder : TokenProvider)
    (githubInstallationId : InstallationId) (req : AxiosReq) : AxiosReq :=
  applyChain
    (requestInterceptorChain now configuredTimeout appTokenHolder
      githubInstallationId)
    req

/-- The request dispatched by `getApp` (github-app-client.ts line 70):
`GET /app` with an empty config. -/
def getApp (now configuredTimeout : Nat) (appTokenHolder : TokenProvider)
    (githubInstallationId : InstallationId) : AxiosReq :=
  dispatch now configuredTimeout appTokenHolder githubInstallationId
    { url := "/app", urlParams := [], headers := [] }

/-- The request dispatched by `getInstallation`
(github-app-client.ts lines 89-97): `GET /installations/\x7binstallationId\x7d`
with the installation id as a named URL parameter. -/
def getInstallation (now configuredTimeout : Nat)
    (appTokenHolder : TokenProvider) (githubInstallationId : InstallationId)
    (installationId : Nat) : AxiosReq :=
  dispatch now configuredTimeout appTokenHolder githubInstallationId
    { url := "/installations/\x7binstallationId\x7d",
      urlParams := [("installationId", toString installationId)],
      headers := [] }

/-- The request dispatched by `getInstallations`
(github-app-client.ts line 99): `GET /app/installations`. -/
def getInstallations (now configuredTimeout : Nat)
    (appTokenHolder : TokenProvider) (githubInstallationId : InstallationId) :
    AxiosReq :=
  dispatch now configuredTimeout appTokenHolder githubInstallationId
    { url := "/app/installations", urlParams := [], headers := [] }

/-- The request dispatched by `getUserMembershipForOrg`
(github-app-client.ts lines 61-68):
`GET /orgs/\x7borg\x7d/memberships/\x7busername\x7d` with both names as
URL parameters. -/
def getUserMembershipForOrg (now configuredTimeout : Nat)
    (appTokenHolder : TokenProvider) (githubInstallationId : InstallationId)
    (username org : String) : AxiosReq :=
  dispatch now configuredTimeout appTokenHolder githubInstallationId
    { url := "/orgs/\x7borg\x7d/memberships/\x7busername\x7d",
      urlParams := [("username", username), ("org", org)],
      headers := [] }

/-- A transport failure on the response path, as the failure
classification distinguishes them: timeout, connection failure, or a
non-2xx HTTP status. -/
inductive TransportFailure where
  | timeout
  | connectionRefused
  | httpStatus (status : Nat)
deriving DecidableEq, Repr

/-- A classified transport failure: the original failure enriched with
the decision whether it was logged. -/
structure ClassifiedFailure where
  failure : TransportFailure
  logged : Bool
deriving DecidableEq, Repr

/-- Modelled from the spec: the `handleFailedRequest` response
interceptor — classifies the transport error, decides logging severity,
and re-rejects; it never swallows an error (interceptor body lives
outside the given sources). -/
def handleFailedRequest (err : TransportFailure) :
    Except ClassifiedFailure AxiosReq :=
  Except.error { failure := err, logged := true }

end GitHubAppClient

/-- C1: for every GraphQL call whose transport succeeds and whose
response body contains a non-empty errors sequence with at least one
entry whose type marks rate-limiting, `graphql` rejects with
`RateLimitingError` carrying the full response, regardless of how many
other errors are present; the generic-error aggregation is never
reached. -/
theorem graphql_rateLimit_priority {T : Type}
    (response : AxiosResponse (GraphQlQueryResponse T))
    (errs : List QueryError)
    (h : response.data.bind GraphQlQueryResponse.errors = some errs)
    (hrl : errs.any (fun err => err.type == some "RATE_LIMITED") = true) :
    GitHubClient.graphql response = .RateLimitingError response ∧
    ∀ (msg : String) (es : List QueryError),
      GitHubClient.graphql response ≠ .GithubClientGraphQLError msg es := by
  cases errs with
  | nil => simp at hrl
  | cons first rest =>
    unfold GitHubClient.graphql
    rw [h]
    simp [hrl]

/-- Witness for C1: a concrete response holding one plain error and one
rate-limit-typed error is rejected as rate-limited. -/
theorem graphql_rateLimit_priority_witness :
    GitHubClient.graphql (T := Bool)
      ⟨200, some ⟨none, some [⟨"x", none⟩, ⟨"limit", some "RATE_LIMITED"⟩]⟩⟩ =
    GraphQLResult.RateLimitingError
      ⟨200, some ⟨none, some [⟨"x", none⟩, ⟨"limit", some "RATE_LIMITED"⟩]⟩⟩ :=
  (graphql_rateLimit_priority (T := Bool)
    ⟨200, some ⟨none, some [⟨"x", none⟩, ⟨"limit", some "RATE_LIMITED"⟩]⟩⟩
    [⟨"x", none⟩, ⟨"limit", some "RATE_LIMITED"⟩]
    rfl (by decide)).1

/-- C2: for every GraphQL response with a non-empty errors sequence in
which no entry is of rate-limit type, `graphql` rejects with
`GithubClientGraphQLError` whose message is the first error's message
verbatim when the sequence has one entry, and the first error's message
followed by " and ", the count of remaining errors, and " more errors"
otherwise; the payload carries the full errors sequence. -/
theorem graphql_generic_error_aggregation {T : Type}
    (response : AxiosResponse (GraphQlQueryResponse T))
    (first : QueryError) (rest : List QueryError)
    (h : response.data.bind GraphQlQueryResponse.errors = some (first :: rest))
    (hnorl : (first :: rest).any (fun err => err.type == some "RATE_LIMITED") = false) :
    (rest = [] →
      GitHubClient.graphql response =
        .GithubClientGraphQLError first.message [first]) ∧
    (rest ≠ [] →
      GitHubClient.graphql response =
        .GithubClientGraphQLError
          (first.message ++ " and " ++ toString rest.length ++ " more errors")
          (first :: rest)) := by
  unfold GitHubClient.graphql
  rw [h]
  constructor
  · intro hrest
    subst hrest
    simp [hnorl, String.append_empty]
  · intro hrest
    cases rest with
    | nil => exact absurd rfl hrest
    | cons second more =>
      simp [hnorl, String.append_assoc]

/-- Witness for C2: a concrete response with three non-rate-limit
errors is rejected with the message "boom and 2 more errors" and the
full errors list. -/
theorem graphql_generic_error_aggregation_witness :
    GitHubClient.graphql (T := Bool)
      ⟨200, some ⟨none, some [⟨"boom", none⟩, ⟨"b", some "OTHER"⟩, ⟨"c", none⟩]⟩⟩ =
    GraphQLResult.GithubClientGraphQLError "boom and 2 more errors"
      [⟨"boom", none⟩, ⟨"b", some "OTHER"⟩, ⟨"c", none⟩] := by
  have h :=
    (graphql_generic_error_aggregation (T := Bool)
      ⟨200, some ⟨none, some [⟨"boom", none⟩, ⟨"b", some "OTHER"⟩, ⟨"c", none⟩]⟩⟩
      ⟨"boom", none⟩ [⟨"b", some "OTHER"⟩, ⟨"c", none⟩]
      rfl (by decide)).2 (by decide)
  rw [h]
  decide

/-- C3: for every GraphQL response whose errors sequence is empty or
absent, `graphql` resolves with the original transport response
unchanged, even when the data field is also absent. -/
theorem graphql_no_errors_resolves {T : Type}
    (response : AxiosResponse (GraphQlQueryResponse T))
    (h : response.data.bind GraphQlQueryResponse.errors = none ∨
         response.data.bind GraphQlQueryResponse.errors = some []) :
    GitHubClient.graphql response = .resolve response := by
  unfold GitHubClient.graphql
  rcases h with h | h <;> rw [h]

/-- Witness for C3: a concrete response with an empty errors sequence
and no data resolves unchanged. -/
theorem graphql_no_errors_resolves_witness :
    GitHubClient.graphql (T := Bool)
      { status := 200, data := some { data := none, errors := some [] } } =
    GraphQLResult.resolve
      { status := 200, data := some { data := none, errors := some [] } } :=
  graphql_no_errors_resolves _ (Or.inr rfl)

/-- C9: `graphql` classifies a response as rate-limited if and only if
some entry of its errors sequence has a type field equal to the exact
string "RATE_LIMITED"; any other type value (absent type included)
never yields `RateLimitingError`. -/
theorem graphql_rate_limit_iff {T : Type}
    (response : AxiosResponse (GraphQlQueryResponse T)) :
    GitHubClient.graphql response = .RateLimitingError response ↔
      ∃ errs, response.data.bind GraphQlQueryResponse.errors = some errs ∧
        errs.any (fun err => err.type == some "RATE_LIMITED") = true := by
  unfold GitHubClient.graphql
  cases hb : response.data.bind GraphQlQueryResponse.errors with
  | none => simp
  | some errs =>
    cases errs with
    | nil => simp
    | cons first rest =>
      by_cases hrl :
          (first :: rest).any (fun err => err.type == some "RATE_LIMITED") = true
      · simp [hrl]
        simpa using hrl
      · simp only [Bool.not_eq_true] at hrl
        simp [hrl]
        simpa using hrl

/-- C4: for every GitHubConfig with proxyBaseUrl set (a non-empty URL,
since the constructor tests it for truthiness), client construction
builds a transport configuration with an HTTP proxy agent and an HTTPS
proxy agent both pointed at that URL — regardless of the target host,
since the configuration does not depend on any other field — and
disables axios native proxy handling. -/
theorem explicit_proxy_both_schemes
    (envProxy : Option String) (cfg : GitHubConfig) (url : String)
    (h : cfg.proxyBaseUrl = some url) (hne : url ≠ "") :
    GitHubClient.constructorProxyConfig envProxy cfg =
      { httpAgent := some (Agent.HttpProxyAgent url),
        httpsAgent := some (Agent.HttpsProxyAgent url),
        proxy := false } := by
  unfold GitHubClient.constructorProxyConfig
  rw [h]
  simp [GitHubClient.strTruthy, hne, GitHubClient.buildProxyConfig]

/-- Witness for C4: a concrete configuration with an explicit proxy
base URL yields both agents pointed at it and `proxy: false`. -/
theorem explicit_proxy_both_schemes_witness :
    GitHubClient.constructorProxyConfig none
      ⟨"ghe.example.com", "https://ghe.example.com",
       "https://ghe.example.com/api/v3", "https://ghe.example.com/api/graphql",
       some "http://proxy.example:3128"⟩ =
      { httpAgent := some (Agent.HttpProxyAgent "http://proxy.example:3128"),
        httpsAgent := some (Agent.HttpsProxyAgent "http://proxy.example:3128"),
        proxy := false } :=
  explicit_proxy_both_schemes none _ "http://proxy.example:3128" rfl (by decide)

/-- C5: for every GitHubConfig without proxyBaseUrl, the selection over
the host of the REST base URL is: trusted (atlassian.com) host gives no
proxy agent at all; otherwise the HTTPS agent comes from the
process-wide proxy setting, and an absent setting gives no agent
(direct connection). The selection is a pure function. -/
theorem proxy_selection_heuristic
    (envProxy : Option String) (cfg : GitHubConfig)
    (h : cfg.proxyBaseUrl = none) :
    (GitHubClient.hostIsAtlassian cfg.apiUrl = true →
      GitHubClient.constructorProxyConfig envProxy cfg =
        GitHubClient.noProxyConfig ∧
      (GitHubClient.constructorProxyConfig envProxy cfg).httpAgent = none ∧
      (GitHubClient.constructorProxyConfig envProxy cfg).httpsAgent = none) ∧
    (GitHubClient.hostIsAtlassian cfg.apiUrl = false →
      (GitHubClient.constructorProxyConfig envProxy cfg).httpsAgent =
        envProxy.map Agent.HttpsProxyAgent ∧
      (envProxy = none →
        (GitHubClient.constructorProxyConfig envProxy cfg).httpsAgent = none ∧
        (GitHubClient.constructorProxyConfig envProxy cfg).httpAgent = none)) := by
  unfold GitHubClient.constructorProxyConfig GitHubClient.getProxyConfig
  rw [h]
  constructor
  · intro ht
    simp [GitHubClient.strTruthy, ht, GitHubClient.noProxyConfig]
  · intro hf
    constructor
    · simp [GitHubClient.strTruthy, hf, GitHubClient.outboundProxyConfig]
    · rintro rfl
      simp [GitHubClient.strTruthy, hf, GitHubClient.outboundProxyConfig]

/-- Witness for C5: a trusted host with the process-wide proxy present
still gets no proxy agent. -/
theorem proxy_selection_heuristic_witness :
    GitHubClient.constructorProxyConfig (some "http://proxy.example:3128")
      ⟨"api.atlassian.com", "https://api.atlassian.com",
       "https://api.atlassian.com", "https://api.atlassian.com/graphql",
       none⟩ =
      GitHubClient.noProxyConfig :=
  ((proxy_selection_heuristic (some "http://proxy.example:3128") _ rfl).1
    (by decide)).1

/-- C10: without an explicit proxyBaseUrl and with an untrusted target
host, the configuration built from the process-wide proxy setting holds
only an HTTPS proxy agent and no HTTP proxy agent — unlike the
explicit-proxy path, which installs an HTTP agent as well. -/
theorem outbound_proxy_https_only
    (envProxy : Option String) (cfg : GitHubConfig) (proxyUrl : String)
    (h : cfg.proxyBaseUrl = none)
    (hhost : GitHubClient.hostIsAtlassian cfg.apiUrl = false)
    (henv : envProxy = some proxyUrl) :
    (GitHubClient.constructorProxyConfig envProxy cfg).httpAgent = none ∧
    (GitHubClient.constructorProxyConfig envProxy cfg).httpsAgent =
      some (Agent.HttpsProxyAgent proxyUrl) ∧
    (GitHubClient.constructorProxyConfig envProxy cfg).proxy = false ∧
    (GitHubClient.buildProxyConfig proxyUrl).httpAgent =
      some (Agent.HttpProxyAgent proxyUrl) := by
  subst henv
  unfold GitHubClient.constructorProxyConfig GitHubClient.getProxyConfig
  rw [h]
  simp [GitHubClient.strTruthy, hhost, GitHubClient.outboundProxyConfig,
    GitHubClient.buildProxyConfig]

/-- Witness for C10: a concrete GitHub Enterprise Server host with the
process-wide proxy set gets an HTTPS agent and no HTTP agent. -/
theorem outbound_proxy_https_only_witness :
    (GitHubClient.constructorProxyConfig (some "http://proxy.example:3128")
        ⟨"ghe.example.com", "https://ghe.example.com",
         "https://ghe.example.com/api/v3",
         "https://ghe.example.com/api/graphql", none⟩).httpAgent = none ∧
    (GitHubClient.constructorProxyConfig (some "http://proxy.example:3128")
        ⟨"ghe.example.com", "https://ghe.example.com",
         "https://ghe.example.com/api/v3",
         "https://ghe.example.com/api/graphql", none⟩).httpsAgent =
      some (Agent.HttpsProxyAgent "http://proxy.example:3128") := by
  have h := outbound_proxy_https_only (some "http://proxy.example:3128")
    ⟨"ghe.example.com", "https://ghe.example.com",
     "https://ghe.example.com/api/v3",
     "https://ghe.example.com/api/graphql", none⟩
    "http://proxy.example:3128" rfl (by decide) rfl
  exact ⟨h.1, h.2.1⟩

/-- C6: every App Client request computes its authentication headers at
dispatch time from the token provider keyed by the installation
identity: each of the four endpoint methods carries
`Authorization: Bearer <current token>` and the app-preview Accept
header, and a dispatch under a rotated provider carries the rotated
token — the headers are a function of the provider passed at dispatch,
so nothing is cached inside the client. -/
theorem app_client_fresh_auth_headers
    (now configuredTimeout : Nat) (tokens rotated : TokenProvider)
    (id : InstallationId) (installationId : Nat) (username org : String) :
    ((GitHubAppClient.getApp now configuredTimeout tokens id).headers.lookup
        "Authorization" = some ("Bearer " ++ (tokens id).token) ∧
      (GitHubAppClient.getApp now configuredTimeout tokens id).headers.lookup
        "Accept" = some "application/vnd.github.machine-man-preview+json") ∧
    (GitHubAppClient.getInstallation now configuredTimeout tokens id
        installationId).headers.lookup "Authorization" =
      some ("Bearer " ++ (tokens id).token) ∧
    (GitHubAppClient.getInstallations now configuredTimeout tokens
        id).headers.lookup "Authorization" =
      some ("Bearer " ++ (tokens id).token) ∧
    (GitHubAppClient.getUserMembershipForOrg now configuredTimeout tokens id
        username org).headers.lookup "Authorization" =
      some ("Bearer " ++ (tokens id).token) ∧
    (GitHubAppClient.getApp now configuredTimeout rotated id).headers.lookup
        "Authorization" = some ("Bearer " ++ (rotated id).token) := by
  refine ⟨⟨?_, ?_⟩, ?_, ?_, ?_, ?_⟩ <;> rfl

/-- C7: the request-side pipeline applies, in this order, start-time
recording, timeout enforcement, URL-parameter substitution, and
authentication-header injection — the dispatched request is the
composition of the four registered transforms and carries the recorded
start time and timeout — and on the response path a classified failure
is always re-thrown (never turned into a success) with the original
failure preserved inside the classification. -/
theorem app_client_pipeline_order
    (now configuredTimeout : Nat) (tokens : TokenProvider)
    (id : InstallationId) (req : AxiosReq)
    (err : GitHubAppClient.TransportFailure) :
    GitHubAppClient.dispatch now configuredTimeout tokens id req =
      GitHubAppClient.authHeadersInterceptor tokens id
        (GitHubAppClient.urlParamsMiddleware
          (GitHubAppClient.setRequestTimeout configuredTimeout
            (GitHubAppClient.setRequestStartTime now req))) ∧
    (GitHubAppClient.dispatch now configuredTimeout tokens id req).startTime =
      some now ∧
    (GitHubAppClient.dispatch now configuredTimeout tokens id req).timeout =
      some configuredTimeout ∧
    (∀ r : AxiosReq, GitHubAppClient.handleFailedRequest err ≠ Except.ok r) ∧
    (∃ e, GitHubAppClient.handleFailedRequest err = Except.error e ∧
      e.failure = err) := by
  refine ⟨rfl, rfl, rfl, ?_, ⟨⟨err, true⟩, rfl, rfl⟩⟩
  intro r
  simp [GitHubAppClient.handleFailedRequest]

/-- C8 counterexample: the claim asserts two authentication modes (JWT
directly versus installation token) selected per request by which
endpoint is called; at these concrete inputs the headers injected for
`getInstallation` coincide with those injected for `getApp`,
`getInstallations` and `getUserMembershipForOrg` — the injection step
never distinguishes endpoints, so no per-endpoint mode selection
exists in this client. -/
theorem app_client_single_auth_mode_counterexample :
    (GitHubAppClient.getInstallation 5 1000 (fun _ => ⟨"jwt-token", 99⟩)
        ⟨1, "https://api.github.com", "u"⟩ 42).headers =
      (GitHubAppClient.getApp 5 1000 (fun _ => ⟨"jwt-token", 99⟩)
        ⟨1, "https://api.github.com", "u"⟩).headers ∧
    (GitHubAppClient.getInstallations 5 1000 (fun _ => ⟨"jwt-token", 99⟩)
        ⟨1, "https://api.github.com", "u"⟩).headers =
      (GitHubAppClient.getApp 5 1000 (fun _ => ⟨"jwt-token", 99⟩)
        ⟨1, "https://api.github.com", "u"⟩).headers ∧
    (GitHubAppClient.getUserMembershipForOrg 5 1000
        (fun _ => ⟨"jwt-token", 99⟩) ⟨1, "https://api.github.com", "u"⟩
        "alice" "acme").headers =
      (GitHubAppClient.getApp 5 1000 (fun _ => ⟨"jwt-token", 99⟩)
        ⟨1, "https://api.github.com", "u"⟩).headers := by
  refine ⟨rfl, rfl, rfl⟩

/-- C8 (amended): the App Client's header injection has a single
authentication mode: every endpoint's dispatched request carries
exactly the freshly computed app-token headers, i.e. the app JWT is
passed directly into the Authorization header for `getInstallation`
just as for every other endpoint; no per-request capability flag
selects between modes. -/
theorem app_client_single_auth_mode
    (now configuredTimeout : Nat) (tokens : TokenProvider)
    (id : InstallationId) (installationId : Nat) (username org : String) :
    (GitHubAppClient.getApp now configuredTimeout tokens id).headers =
      GitHubAppClient.appAuthenticationHeaders tokens id ∧
    (GitHubAppClient.getInstallation now configuredTimeout tokens id
        installationId).headers =
      GitHubAppClient.appAuthenticationHeaders tokens id ∧
    (GitHubAppClient.getInstallations now configuredTimeout tokens id).headers =
      GitHubAppClient.appAuthenticationHeaders tokens id ∧
    (GitHubAppClient.getUserMembershipForOrg now configuredTimeout tokens id
        username org).headers =
      GitHubAppClient.appAuthenticationHeaders tokens id := by
  refine ⟨rfl, rfl, rfl, rfl⟩
